import Mathlib

/-!
Verification of the Spotify-GitHub status updater (`spotifygithub.py`).

The development shallowly embeds the four functions of the core loop file:
`update_env_file`, `refresh_access_token`, `get_current_playing`,
`set_github_status`, and one iteration of `main`'s `while True` body.
Network I/O is modeled by passing the remote responses in explicitly; file
and API side effects are recorded in an explicit effect list; the wall
clock is an explicit `now` parameter. Times are exact integers.
-/

namespace SpotifyGithub

/-- The .env durable store. The Python code reads the file as raw lines and
matches a line by `line.startswith(key + "=")`; for well-formed env files
(keys contain no `=`) that is exactly key equality, so each `KEY=VALUE`
line is modeled as a (key, value) pair. `present` models
`os.path.exists(ENV_PATH)`. -/
structure EnvFile where
  present : Bool
  lines : List (String × String)
  deriving Repr, DecidableEq

/-- Replace the first line whose key matches, else append — the loop over
`lines` in `update_env_file` (and the `lines.append` when no line matched). -/
def setLine (key value : String) : List (String × String) → List (String × String)
  | [] => [(key, value)]
  | (k, v) :: rest =>
    if k = key then (key, value) :: rest else (k, v) :: setLine key value rest

/-- Read back the value stored for a key (first matching line), as a reader
of the .env file would. -/
def envLookup (env : EnvFile) (key : String) : Option String :=
  (env.lines.find? (fun kv => kv.1 = key)).map (fun kv => kv.2)

/-- Embedding of `update_env_file(key, value)`: if the file exists, patch the
matching line (or append) and rewrite the file, returning True; if the file
is missing, do nothing and return False. -/
def update_env_file (env : EnvFile) (key value : String) : EnvFile × Bool :=
  if env.present then ({ env with lines := setLine key value env.lines }, true)
  else (env, false)

/-- A response of the Spotify token endpoint, as the fields the code reads:
HTTP status, the JSON `error` field (read on 400), and the JSON
`access_token`, `expires_in`, `refresh_token` fields (read on 200).
`none` models an absent JSON key. -/
structure TokenResponse where
  status : Nat
  error : Option String
  access_token : Option String
  expires_in : Option Nat
  refresh_token : Option String
  deriving Repr, DecidableEq

/-- The credential dict returned by `refresh_access_token` on success:
`access_token` (absent JSON key gives Python `None`) and the lifetime
`expires_in` after the `3600` default has been applied; the caller turns it
into an absolute `expires_at`. -/
structure Credential where
  access_token : Option String
  expires_in : Nat
  deriving Repr, DecidableEq

/-- Mutable module state read and written by `refresh_access_token`: the
`SPOTIFY_REFRESH_TOKEN` global and the .env file. -/
structure TokenState where
  refreshToken : String
  env : EnvFile
  deriving Repr, DecidableEq

/-- Observable side effects of one loop iteration. -/
inductive Effect where
  /-- A POST to the token endpoint. -/
  | refreshCall
  /-- A write of the whole .env file storing `value` under `key`. -/
  | envWrite (key value : String)
  /-- A GET of the currently-playing endpoint. -/
  | pollCall
  /-- A GitHub GraphQL mutation: `some m` sets the status message, `none`
  clears it. -/
  | publish (message : Option String)
  /-- A `time.sleep` of the given number of seconds. -/
  | sleepSec (n : Nat)
  deriving Repr, DecidableEq

/-- Embedding of `refresh_access_token()`. Any non-200 status returns `none`
(the 400 `invalid_grant` case only adds log lines before the same
`return None`). On 200 the code reads the credential fields, and iff the
response carries a `refresh_token` that is truthy (non-empty) and differs
from the current one it calls `update_env_file` and in every case then sets
the `SPOTIFY_REFRESH_TOKEN` global to the new value. Returns the result,
the new module state, and the durable writes performed. -/
def refresh_access_token (st : TokenState) (resp : TokenResponse) :
    Option Credential × TokenState × List Effect :=
  if resp.status ≠ 200 then
    (none, st, [])
  else
    let cred : Credential :=
      { access_token := resp.access_token
        expires_in := resp.expires_in.getD 3600 }
    match resp.refresh_token with
    | some t =>
      if t ≠ "" ∧ t ≠ st.refreshToken then
        let (env2, ok) := update_env_file st.env "SPOTIFY_REFRESH_TOKEN" t
        (some cred, { refreshToken := t, env := env2 },
          if ok then [Effect.envWrite "SPOTIFY_REFRESH_TOKEN" t] else [])
      else
        (some cred, st, [])
    | none => (some cred, st, [])

/-- An artist object within the playback JSON: the code reads only `name`. -/
structure Artist where
  name : String
  deriving Repr, DecidableEq

/-- The `item` object of the playback JSON, with the fields the code reads:
`name` and `artists` via direct indexing, `duration_ms` via `.get` with
default. -/
structure Item where
  name : String
  artists : List Artist
  duration_ms : Option Int
  deriving Repr, DecidableEq

/-- A response of the currently-playing endpoint: HTTP status and the JSON
fields read by the code. `item := none` covers both a missing and a JSON
null `item` (both falsy in `not data.get("item")`). -/
structure PlaybackResponse where
  status : Nat
  item : Option Item
  is_playing : Option Bool
  progress_ms : Option Int
  deriving Repr, DecidableEq

/-- Result of `get_current_playing`: the `"TOKEN_EXPIRED"` sentinel, Python
`None`, or the `{"message", "expires_at"}` dict. -/
inductive PlayingResult where
  | tokenExpired
  | absent
  | playing (message : String) (expires_at : Int)
  deriving Repr, DecidableEq

/-- Embedding of `get_current_playing(access_token)`. `pfx` is the
`STATUS_PREFIX` config and `now` the value of `datetime.now(timezone.utc)`
in milliseconds. 204 gives `None`, 401 the sentinel, any other non-200
`None`; on 200, a falsy `item` or a falsy `is_playing` (default False)
gives `None`, otherwise the message is built from the track name and the
comma-joined artist names and `expires_at` is now plus
`max(duration_ms - progress_ms, 0)`. -/
def get_current_playing (pfx : String) (now : Int) (resp : PlaybackResponse) :
    PlayingResult :=
  if resp.status = 204 then PlayingResult.absent
  else if resp.status = 401 then PlayingResult.tokenExpired
  else if resp.status ≠ 200 then PlayingResult.absent
  else
    match resp.item with
    | none => PlayingResult.absent
    | some item =>
      if resp.is_playing.getD false = false then PlayingResult.absent
      else
        let artists := String.intercalate ", " (item.artists.map Artist.name)
        let message := pfx ++ item.name ++ " by " ++ artists
        let progress_ms := resp.progress_ms.getD 0
        let duration_ms := item.duration_ms.getD 0
        let remaining_ms := max (duration_ms - progress_ms) 0
        PlayingResult.playing message (now + remaining_ms)

/-- A response of the GitHub GraphQL endpoint as the code inspects it:
HTTP status, whether the JSON body has an `errors` key, and whether the
request raised (network failure). -/
structure GithubResponse where
  status : Nat
  hasErrors : Bool
  raised : Bool
  deriving Repr, DecidableEq

/-- Embedding of `set_github_status(message, expires_at)`: an exception, a
non-200 status or a GraphQL `errors` key gives False, otherwise True. The
function is total — every failure becomes a boolean, never an escaping
exception. -/
def set_github_status (resp : GithubResponse) : Bool :=
  if resp.raised then false
  else if resp.status ≠ 200 then false
  else if resp.hasErrors then false
  else true

/-- Startup configuration read from the environment: `POLL_INTERVAL` (the
Python float is an exact small number; modeled as a Nat of seconds, default
15), `STATUS_PREFIX`, and `CLEAR_STATUS_WHEN_IDLE`. -/
structure Config where
  pollInterval : Nat
  statusPfx : String
  clearWhenIdle : Bool
  deriving Repr, DecidableEq

/-- The local variables of `main` that survive across iterations, plus the
token-manager state. `access_token` is `none` for Python `None`.
`max_failures` is the literal 5 in the code. -/
structure MainState where
  access_token : Option String
  expires_at_token : Int
  last_status : Option String
  consecutive_failures : Nat
  tokens : TokenState
  deriving Repr, DecidableEq

/-- How one iteration of the `while True` body ends: `continue` back to the
top with the new state, or `sys.exit(code)`. -/
inductive StepOutcome where
  | next (st : MainState)
  | exit (code : Nat)
  deriving Repr, DecidableEq

/-- The external world during one iteration: the wall clock (seconds for the
token clock, the same instant in `nowMs` milliseconds for the playback
expiry), and the responses the three endpoints would give if called this
iteration. -/
structure TickInput where
  now : Int
  nowMs : Int
  tokenResp : TokenResponse
  playResp : PlaybackResponse
  githubResp : GithubResponse
  deriving Repr, DecidableEq

/-- The poll/diff/publish part of the loop body (everything after the token
block): fetch the current track, handle the `"TOKEN_EXPIRED"` sentinel with
a bare `continue` (no sleep), otherwise diff the candidate message against
`last_status`, publish when appropriate (advancing `last_status` only on
success), and sleep the poll interval. -/
def pollPhase (cfg : Config) (st : MainState) (inp : TickInput)
    (pre : List Effect) : StepOutcome × List Effect :=
  match get_current_playing cfg.statusPfx inp.nowMs inp.playResp with
  | PlayingResult.tokenExpired =>
    (StepOutcome.next { st with access_token := none }, pre ++ [Effect.pollCall])
  | res =>
    let status_message : Option String :=
      match res with
      | PlayingResult.playing m _ => some m
      | _ => none
    if status_message ≠ st.last_status then
      if status_message = none ∧ cfg.clearWhenIdle = false then
        (StepOutcome.next st,
          pre ++ [Effect.pollCall, Effect.sleepSec cfg.pollInterval])
      else
        let ok := set_github_status inp.githubResp
        let st2 := if ok then { st with last_status := status_message } else st
        (StepOutcome.next st2,
          pre ++ [Effect.pollCall, Effect.publish status_message,
            Effect.sleepSec cfg.pollInterval])
    else
      (StepOutcome.next st,
        pre ++ [Effect.pollCall, Effect.sleepSec cfg.pollInterval])

/-- Python truthiness of `access_token`: `not access_token` holds for `None`
and for the empty string. -/
def tokenFalsy : Option String → Bool
  | none => true
  | some s => s = ""

/-- One iteration of `main`'s `while True` body. If there is no access token
or it is within 60 seconds of expiry, refresh first: on failure increment
`consecutive_failures`, exit 1 at `max_failures` (5), else sleep
`min(POLL_INTERVAL * consecutive_failures, 300)` and `continue`; on success
install the credential, reset the counter and fall through to the poll
phase. -/
def mainTick (cfg : Config) (st : MainState) (inp : TickInput) :
    StepOutcome × List Effect :=
  if tokenFalsy st.access_token = true ∨ inp.now ≥ st.expires_at_token - 60 then
    let (cred?, tokens2, writes) := refresh_access_token st.tokens inp.tokenResp
    match cred? with
    | none =>
      let st2 := { st with tokens := tokens2,
                           consecutive_failures := st.consecutive_failures + 1 }
      if st2.consecutive_failures ≥ 5 then
        (StepOutcome.exit 1, [Effect.refreshCall] ++ writes)
      else
        let wait := min (cfg.pollInterval * st2.consecutive_failures) 300
        (StepOutcome.next st2,
          [Effect.refreshCall] ++ writes ++ [Effect.sleepSec wait])
    | some cred =>
      let st2 := { st with
        access_token := cred.access_token
        expires_at_token := inp.now + (cred.expires_in : Int)
        consecutive_failures := 0
        tokens := tokens2 }
      pollPhase cfg st2 inp ([Effect.refreshCall] ++ writes)
  else
    pollPhase cfg st inp []

/-- Run a list of iterations from a state, stopping at `sys.exit`; returns
the surviving state (`none` if the process exited) and all effects. -/
def runTicks (cfg : Config) (st : MainState) :
    List TickInput → Option MainState × List Effect
  | [] => (some st, [])
  | inp :: rest =>
    match mainTick cfg st inp with
    | (StepOutcome.exit _, effs) => (none, effs)
    | (StepOutcome.next st2, effs) =>
      let (r, effs2) := runTicks cfg st2 rest
      (r, effs ++ effs2)

/-- The message a playback result contributes as candidate status: the
`status_message` local of `main` (`None` when nothing is playing). -/
def messageOf : PlayingResult → Option String
  | PlayingResult.playing m _ => some m
  | _ => none

/-! Concrete fixtures used by witnesses and counterexamples. -/

def sampleItem : Item :=
  { name := "Song", artists := [{ name := "A" }, { name := "B" }],
    duration_ms := some 40000 }

def samplePlay : PlaybackResponse :=
  { status := 200, item := some sampleItem, is_playing := some true,
    progress_ms := some 10000 }

def idlePlay : PlaybackResponse :=
  { status := 200, item := none, is_playing := some false, progress_ms := none }

def play401 : PlaybackResponse :=
  { status := 401, item := none, is_playing := none, progress_ms := none }

def ghOk : GithubResponse := { status := 200, hasErrors := false, raised := false }

def ghFail : GithubResponse := { status := 502, hasErrors := false, raised := false }

def tokOk : TokenResponse :=
  { status := 200, error := none, access_token := some "acc1",
    expires_in := some 3600, refresh_token := none }

def tokRotate : TokenResponse :=
  { status := 200, error := none, access_token := some "acc1",
    expires_in := some 3600, refresh_token := some "newtok" }

def tokInvalidGrant : TokenResponse :=
  { status := 400, error := some "invalid_grant", access_token := none,
    expires_in := none, refresh_token := none }

def env0 : EnvFile :=
  { present := true,
    lines := [("SPOTIFY_REFRESH_TOKEN", "oldtok"), ("GITHUB_TOKEN", "gh")] }

def tokens0 : TokenState := { refreshToken := "oldtok", env := env0 }

def cfg0 : Config := { pollInterval := 15, statusPfx := "p: ", clearWhenIdle := true }

def cfgNoClear : Config :=
  { pollInterval := 15, statusPfx := "p: ", clearWhenIdle := false }

/-- A fresh start: no access token yet, nothing published. -/
def st0 : MainState :=
  { access_token := none, expires_at_token := 0, last_status := none,
    consecutive_failures := 0, tokens := tokens0 }

/-- A steady state in the polling phase: valid token far from expiry and a
previously published status. -/
def stPolling : MainState :=
  { access_token := some "acc", expires_at_token := 100000,
    last_status := some "p: Old by X", consecutive_failures := 0,
    tokens := tokens0 }

/-- A tick input whose token endpoint answers 400 invalid_grant. -/
def inpInvalidGrant : TickInput :=
  { now := 0, nowMs := 0, tokenResp := tokInvalidGrant, playResp := idlePlay,
    githubResp := ghOk }

/-- A tick input at time 0 with a playing track and a healthy GitHub API. -/
def inpPlaying : TickInput :=
  { now := 0, nowMs := 0, tokenResp := tokOk, playResp := samplePlay,
    githubResp := ghOk }

/-- The same tick input but GitHub rejects the mutation. -/
def inpPlayingGhFail : TickInput :=
  { now := 0, nowMs := 0, tokenResp := tokOk, playResp := samplePlay,
    githubResp := ghFail }

/-- A tick input whose playback call answers 401. -/
def inp401 : TickInput :=
  { now := 0, nowMs := 0, tokenResp := tokOk, playResp := play401,
    githubResp := ghOk }

/-- A tick input with nothing playing. -/
def inpIdle : TickInput :=
  { now := 0, nowMs := 0, tokenResp := tokOk, playResp := idlePlay,
    githubResp := ghOk }

/-- A 200 token response that echoes back the current refresh token. -/
def tokSame : TokenResponse :=
  { status := 200, error := none, access_token := some "acc2",
    expires_in := none, refresh_token := some "oldtok" }

/-- A polling-phase state that has published nothing yet. -/
def stIdle : MainState :=
  { access_token := some "acc", expires_at_token := 100000,
    last_status := none, consecutive_failures := 0, tokens := tokens0 }

/-- A fresh-start state already at four consecutive refresh failures. -/
def stFail4 : MainState :=
  { access_token := none, expires_at_token := 0, last_status := none,
    consecutive_failures := 4, tokens := tokens0 }

/-- A transient token-endpoint failure (503). -/
def tokServerErr : TokenResponse :=
  { status := 503, error := none, access_token := none, expires_in := none,
    refresh_token := none }

/-- A tick input whose token endpoint answers 503. -/
def inpServerErr : TickInput :=
  { now := 0, nowMs := 0, tokenResp := tokServerErr, playResp := idlePlay,
    githubResp := ghOk }

/-! Helper lemmas. -/

/-- Replacing (or appending) a key's line makes that key's first matching
line carry the new value. -/
lemma find?_setLine (key value : String) (l : List (String × String)) :
    (setLine key value l).find? (fun kv => kv.1 = key) = some (key, value) := by
  induction l with
  | nil => simp [setLine, List.find?]
  | cons hd tl ih =>
    by_cases hk : hd.1 = key
    · cases hd
      simp_all [setLine, List.find?]
    · cases hd
      simp_all [setLine, List.find?]

/-- Looking a key up after `update_env_file` on a present file yields the
written value. -/
lemma envLookup_update (env : EnvFile) (key value : String)
    (hp : env.present = true) :
    envLookup (update_env_file env key value).1 key = some value := by
  simp [update_env_file, hp, envLookup, find?_setLine]

/-- A failed refresh (any non-200 token response) returns no credential,
leaves the token state alone and performs no durable write. -/
lemma refresh_fail (st : TokenState) (resp : TokenResponse)
    (h : resp.status ≠ 200) :
    refresh_access_token st resp = (none, st, []) := by
  simp [refresh_access_token, h]

/-- A successful refresh (200 token response) returns the credential built
from the response fields, whatever the rotation outcome. -/
lemma refresh_success (st : TokenState) (resp : TokenResponse)
    (h : resp.status = 200) :
    ∃ tokens2 writes,
      refresh_access_token st resp =
        (some { access_token := resp.access_token,
                expires_in := resp.expires_in.getD 3600 }, tokens2, writes) := by
  cases hrt : resp.refresh_token with
  | none => exact ⟨st, [], by simp [refresh_access_token, h, hrt]⟩
  | some t =>
    by_cases hc : t ≠ "" ∧ t ≠ st.refreshToken
    · refine ⟨{ refreshToken := t, env := (update_env_file st.env "SPOTIFY_REFRESH_TOKEN" t).1 },
        if (update_env_file st.env "SPOTIFY_REFRESH_TOKEN" t).2
          then [Effect.envWrite "SPOTIFY_REFRESH_TOKEN" t] else [], ?_⟩
      simp [refresh_access_token, h, hrt, hc]
    · exact ⟨st, [], by simp [refresh_access_token, h, hrt, hc]⟩

/-- The poll phase always continues (never exits), preserves the failure
counter, the token-expiry clock and the token-manager state, always records
the poll call, and keeps whatever effects preceded it. -/
lemma pollPhase_shape (cfg : Config) (st : MainState) (inp : TickInput)
    (pre : List Effect) :
    ∃ st3 effs, pollPhase cfg st inp pre = (StepOutcome.next st3, pre ++ effs) ∧
      st3.consecutive_failures = st.consecutive_failures ∧
      st3.expires_at_token = st.expires_at_token ∧
      st3.tokens = st.tokens ∧
      Effect.pollCall ∈ effs := by
  cases hres : get_current_playing cfg.statusPfx inp.nowMs inp.playResp with
  | tokenExpired =>
    exact ⟨{ st with access_token := none }, [Effect.pollCall],
      by simp [pollPhase, hres], rfl, rfl, rfl, by simp⟩
  | absent =>
    by_cases hch : (none : Option String) ≠ st.last_status
    · by_cases hskip : cfg.clearWhenIdle = false
      · exact ⟨st, [Effect.pollCall, Effect.sleepSec cfg.pollInterval],
          by simp [pollPhase, hres, hch, hskip], rfl, rfl, rfl, by simp⟩
      · refine ⟨if set_github_status inp.githubResp
            then { st with last_status := none } else st,
          [Effect.pollCall, Effect.publish none, Effect.sleepSec cfg.pollInterval],
          by simp [pollPhase, hres, hch, hskip],
          ?_, ?_, ?_, by simp⟩ <;> split <;> rfl
    · exact ⟨st, [Effect.pollCall, Effect.sleepSec cfg.pollInterval],
        by simp [pollPhase, hres, hch], rfl, rfl, rfl, by simp⟩
  | playing m e =>
    by_cases hch : (some m : Option String) ≠ st.last_status
    · refine ⟨if set_github_status inp.githubResp
          then { st with last_status := some m } else st,
        [Effect.pollCall, Effect.publish (some m), Effect.sleepSec cfg.pollInterval],
        by simp [pollPhase, hres, hch],
        ?_, ?_, ?_, by simp⟩ <;> split <;> rfl
    · exact ⟨st, [Effect.pollCall, Effect.sleepSec cfg.pollInterval],
        by simp [pollPhase, hres, hch], rfl, rfl, rfl, by simp⟩

/-- A tick whose refresh fails (non-200 token response): below the failure
cap the loop backs off `min(POLL_INTERVAL * failures, 300)` seconds and
continues in the refresh state with everything except the counter
untouched; at the cap (5) it exits 1, never reaching the poll call. -/
lemma refresh_failure_tick (cfg : Config) (st : MainState) (inp : TickInput)
    (hneed : tokenFalsy st.access_token = true ∨
      inp.now ≥ st.expires_at_token - 60)
    (hfail : inp.tokenResp.status ≠ 200) :
    (st.consecutive_failures + 1 < 5 →
      mainTick cfg st inp =
        (StepOutcome.next
            { st with consecutive_failures := st.consecutive_failures + 1 },
          [Effect.refreshCall,
            Effect.sleepSec
              (min (cfg.pollInterval * (st.consecutive_failures + 1)) 300)])) ∧
    (st.consecutive_failures + 1 ≥ 5 →
      mainTick cfg st inp = (StepOutcome.exit 1, [Effect.refreshCall])) := by
  have hr := refresh_fail st.tokens inp.tokenResp hfail
  constructor
  · intro hlt
    have h5 : ¬ st.consecutive_failures + 1 ≥ 5 := by omega
    unfold mainTick
    rw [if_pos hneed, hr]
    simp [h5]
  · intro hge
    unfold mainTick
    rw [if_pos hneed, hr]
    simp [hge]

/-- A tick that triggers a refresh and gets a 200 token response continues
into the poll phase: the failure counter of the resulting state is 0, and
the tick records both the refresh call and the poll call. -/
lemma refresh_success_tick (cfg : Config) (st : MainState) (inp : TickInput)
    (hneed : tokenFalsy st.access_token = true ∨
      inp.now ≥ st.expires_at_token - 60)
    (h200 : inp.tokenResp.status = 200) :
    ∃ st3 effs, mainTick cfg st inp = (StepOutcome.next st3, effs) ∧
      st3.consecutive_failures = 0 ∧
      Effect.refreshCall ∈ effs ∧ Effect.pollCall ∈ effs := by
  obtain ⟨tk2, wr2, hr2⟩ := refresh_success st.tokens inp.tokenResp h200
  obtain ⟨st3, effs, heq, hcf, _hexp, _htk, hpoll⟩ :=
    pollPhase_shape cfg
      { st with
        access_token := inp.tokenResp.access_token
        expires_at_token :=
          inp.now + ((inp.tokenResp.expires_in.getD 3600 : Nat) : Int)
        consecutive_failures := 0
        tokens := tk2 }
      inp (Effect.refreshCall :: wr2)
  refine ⟨st3, (Effect.refreshCall :: wr2) ++ effs, ?_, by simpa using hcf,
    by simp, by simp [hpoll]⟩
  unfold mainTick
  rw [if_pos hneed, hr2]
  exact heq

/-- A tick in the polling phase whose candidate message equals the last
published status: the loop just polls and sleeps, changing nothing. -/
lemma tick_unchanged (cfg : Config) (st : MainState) (inp : TickInput)
    (htok : tokenFalsy st.access_token = false)
    (hfresh : inp.now < st.expires_at_token - 60)
    (hnt : get_current_playing cfg.statusPfx inp.nowMs inp.playResp ≠
      PlayingResult.tokenExpired)
    (hmsg : messageOf (get_current_playing cfg.statusPfx inp.nowMs inp.playResp)
      = st.last_status) :
    mainTick cfg st inp =
      (StepOutcome.next st,
        [Effect.pollCall, Effect.sleepSec cfg.pollInterval]) := by
  have hnot : ¬ (tokenFalsy st.access_token = true ∨
      inp.now ≥ st.expires_at_token - 60) := by
    push_neg
    exact ⟨by simp [htok], by omega⟩
  cases hres : get_current_playing cfg.statusPfx inp.nowMs inp.playResp with
  | tokenExpired => exact absurd hres hnt
  | absent =>
    rw [hres] at hmsg
    simp only [messageOf] at hmsg
    unfold mainTick
    rw [if_neg hnot]
    simp [pollPhase, hres, ← hmsg]
  | playing m e =>
    rw [hres] at hmsg
    simp only [messageOf] at hmsg
    unfold mainTick
    rw [if_neg hnot]
    simp [pollPhase, hres, ← hmsg]

/-! Claim theorems. -/

/-- C6: on a 200 playback response with an active item, the message is the
prefix, the track name, " by " and the comma-joined artist names in order,
and the expiry is now plus `max(duration_ms - progress_ms, 0)`. -/
theorem C6_track_message_and_expiry (pfx : String) (now : Int)
    (resp : PlaybackResponse) (item : Item)
    (h200 : resp.status = 200) (hitem : resp.item = some item)
    (hplay : resp.is_playing = some true) :
    get_current_playing pfx now resp =
      PlayingResult.playing
        (pfx ++ item.name ++ " by " ++
          String.intercalate ", " (item.artists.map Artist.name))
        (now + max (item.duration_ms.getD 0 - resp.progress_ms.getD 0) 0) := by
  simp [get_current_playing, h200, hitem, hplay]

/-- C6 witness: track "Song" by ["A", "B"], progress 10000, duration 40000
gives message "p: Song by A, B" expiring 30000 ms after now. -/
theorem C6_track_message_and_expiry_witness :
    get_current_playing "p: " 0 samplePlay =
      PlayingResult.playing "p: Song by A, B" 30000 := by
  have h := C6_track_message_and_expiry "p: " 0 samplePlay sampleItem rfl rfl rfl
  rw [h]
  decide

/-- C10: a 200 playback response with a missing item, or with `is_playing`
absent or false, normalizes to absent (Python None); a missing `is_playing`
key is treated exactly like `is_playing = false`. -/
theorem C10_missing_item_or_not_playing (pfx : String) (now : Int)
    (resp : PlaybackResponse) (h200 : resp.status = 200)
    (h : resp.item = none ∨ resp.is_playing = none ∨
      resp.is_playing = some false) :
    get_current_playing pfx now resp = PlayingResult.absent := by
  cases hi : resp.item <;>
    rcases h with h1 | h1 | h1 <;>
    simp_all [get_current_playing]

/-- C10 witness: a 200 response with no item and `is_playing = false` maps
to absent. -/
theorem C10_missing_item_or_not_playing_witness :
    get_current_playing "p: " 0 idlePlay = PlayingResult.absent :=
  C10_missing_item_or_not_playing "p: " 0 idlePlay rfl (Or.inl rfl)

/-- C2: when the token endpoint answers 200 with a refresh_token that is
non-empty and differs from the current one (and the .env store exists), the
call persists the new value to the .env store and updates the in-memory
copy before returning, recording exactly one durable write; the write is
part of the call itself, so the state returned to a caller — all a crash
immediately after the return could lose — already carries the rotated
value, and a credential is still produced. -/
theorem C2_rotation_persisted_before_return (st : TokenState)
    (resp : TokenResponse) (t : String)
    (h200 : resp.status = 200) (hrt : resp.refresh_token = some t)
    (hne : t ≠ "") (hdiff : t ≠ st.refreshToken)
    (hp : st.env.present = true) :
    (refresh_access_token st resp).2.1.refreshToken = t ∧
    envLookup (refresh_access_token st resp).2.1.env "SPOTIFY_REFRESH_TOKEN"
      = some t ∧
    (refresh_access_token st resp).2.2
      = [Effect.envWrite "SPOTIFY_REFRESH_TOKEN" t] ∧
    ((refresh_access_token st resp).1).isSome = true := by
  simp [refresh_access_token, h200, hrt, hne, hdiff, update_env_file, hp,
    envLookup, find?_setLine]

/-- C2 witness: rotating from "oldtok" to "newtok" stores "newtok" in the
.env lines, updates the global, and performs the write. -/
theorem C2_rotation_persisted_before_return_witness :
    (refresh_access_token tokens0 tokRotate).2.1.refreshToken = "newtok" ∧
    envLookup (refresh_access_token tokens0 tokRotate).2.1.env
      "SPOTIFY_REFRESH_TOKEN" = some "newtok" ∧
    (refresh_access_token tokens0 tokRotate).2.2
      = [Effect.envWrite "SPOTIFY_REFRESH_TOKEN" "newtok"] ∧
    ((refresh_access_token tokens0 tokRotate).1).isSome = true :=
  C2_rotation_persisted_before_return tokens0 tokRotate "newtok"
    rfl rfl (by decide) (by decide) rfl

/-- C9: two refreshes in a row whose responses carry no refresh_token or the
unchanged one both return a credential, leave the token state untouched and
perform zero durable writes; and in general a durable write happens only
for a response whose refresh_token exists, is non-empty (truthy) and
differs from the current one. -/
theorem C9_refresh_idempotent_no_writes (st : TokenState)
    (r1 r2 : TokenResponse) (h1 : r1.status = 200) (h2 : r2.status = 200)
    (hr1 : r1.refresh_token = none ∨ r1.refresh_token = some st.refreshToken)
    (hr2 : r2.refresh_token = none ∨ r2.refresh_token = some st.refreshToken) :
    refresh_access_token st r1 =
      (some { access_token := r1.access_token,
              expires_in := r1.expires_in.getD 3600 }, st, []) ∧
    refresh_access_token st r2 =
      (some { access_token := r2.access_token,
              expires_in := r2.expires_in.getD 3600 }, st, []) ∧
    (∀ resp : TokenResponse, (refresh_access_token st resp).2.2 ≠ [] →
      ∃ t, resp.refresh_token = some t ∧ t ≠ "" ∧ t ≠ st.refreshToken) := by
  refine ⟨?_, ?_, ?_⟩
  · rcases hr1 with h | h <;> simp [refresh_access_token, h1, h]
  · rcases hr2 with h | h <;> simp [refresh_access_token, h2, h]
  · intro resp hne
    by_cases hs : resp.status = 200
    · cases hrt : resp.refresh_token with
      | none => simp [refresh_access_token, hs, hrt] at hne
      | some t =>
        by_cases hc : t ≠ "" ∧ t ≠ st.refreshToken
        · exact ⟨t, rfl, hc.1, hc.2⟩
        · simp [refresh_access_token, hs, hrt, hc] at hne
    · simp [refresh_access_token, hs] at hne

/-- C9 witness: a response without refresh_token and one echoing "oldtok"
both leave the state `tokens0` unchanged with no writes, each returning a
credential. -/
theorem C9_refresh_idempotent_no_writes_witness :
    refresh_access_token tokens0 tokOk =
      (some { access_token := tokOk.access_token,
              expires_in := tokOk.expires_in.getD 3600 }, tokens0, []) ∧
    refresh_access_token tokens0 tokSame =
      (some { access_token := tokSame.access_token,
              expires_in := tokSame.expires_in.getD 3600 }, tokens0, []) :=
  ⟨(C9_refresh_idempotent_no_writes tokens0 tokOk tokSame rfl rfl
      (Or.inl rfl) (Or.inr rfl)).1,
    (C9_refresh_idempotent_no_writes tokens0 tokOk tokSame rfl rfl
      (Or.inl rfl) (Or.inr rfl)).2.1⟩

/-- C1 counterexample: with a fresh state (zero failures) and the token
endpoint answering 400 with error invalid_grant, the tick does not
terminate the process: it continues with the failure counter at 1 and a
15-second backoff sleep — the backoff/retry path, not a fatal exit. -/
theorem C1_counterexample_invalid_grant_retries :
    (mainTick cfg0 st0 inpInvalidGrant).1 =
      StepOutcome.next { st0 with consecutive_failures := 1 } ∧
    (mainTick cfg0 st0 inpInvalidGrant).2 =
      [Effect.refreshCall, Effect.sleepSec 15] ∧
    (mainTick cfg0 st0 inpInvalidGrant).1 ≠ StepOutcome.exit 1 := by
  decide

/-- C1 (amended): a 400 invalid_grant token response yields the same failure
value as a transient error (no distinct outcome), so the loop enters the
backoff/retry path — incrementing the counter and sleeping
`min(POLL_INTERVAL * failures, 300)` while below five consecutive failures
— and exits non-zero (making no further API calls that tick) only once the
counter reaches five. -/
theorem C1_invalid_grant_enters_backoff (cfg : Config) (st : MainState)
    (inp : TickInput) (h400 : inp.tokenResp.status = 400)
    (hig : inp.tokenResp.error = some "invalid_grant")
    (hneed : tokenFalsy st.access_token = true ∨
      inp.now ≥ st.expires_at_token - 60) :
    refresh_access_token st.tokens inp.tokenResp = (none, st.tokens, []) ∧
    (st.consecutive_failures + 1 < 5 →
      mainTick cfg st inp =
        (StepOutcome.next
            { st with consecutive_failures := st.consecutive_failures + 1 },
          [Effect.refreshCall,
            Effect.sleepSec
              (min (cfg.pollInterval * (st.consecutive_failures + 1)) 300)])) ∧
    (st.consecutive_failures + 1 ≥ 5 →
      mainTick cfg st inp = (StepOutcome.exit 1, [Effect.refreshCall])) := by
  have hfail : inp.tokenResp.status ≠ 200 := by simp [h400]
  have h := refresh_failure_tick cfg st inp hneed hfail
  exact ⟨refresh_fail st.tokens inp.tokenResp hfail, h.1, h.2⟩

/-- C1 (amended) witness: at zero prior failures, invalid_grant leads to
`continue` with one failure and a 15-second sleep; at four prior failures
it leads to `sys.exit(1)` after only the refresh call. -/
theorem C1_invalid_grant_enters_backoff_witness :
    refresh_access_token tokens0 tokInvalidGrant = (none, tokens0, []) ∧
    mainTick cfg0 st0 inpInvalidGrant =
      (StepOutcome.next { st0 with consecutive_failures := 1 },
        [Effect.refreshCall, Effect.sleepSec 15]) ∧
    mainTick cfg0 stFail4 inpInvalidGrant =
      (StepOutcome.exit 1, [Effect.refreshCall]) := by
  have h := C1_invalid_grant_enters_backoff cfg0 st0 inpInvalidGrant
    rfl rfl (Or.inl rfl)
  have h4 := C1_invalid_grant_enters_backoff cfg0 stFail4 inpInvalidGrant
    rfl rfl (Or.inl rfl)
  refine ⟨h.1, ?_, h4.2.2 (by decide)⟩
  have h2 := h.2.1 (by decide)
  rw [h2]
  decide

/-- C3: when GitHub rejects the status mutation (`set_github_status` returns
false — and it is a total boolean-valued function, never an escaping
exception), the tick leaves the state, including `last_status`, exactly as
it was while still recording the publish attempt; running the same tick
twice therefore attempts the same publish twice. -/
theorem C3_publish_failure_keeps_last_status (cfg : Config) (st : MainState)
    (inp : TickInput) (m : String) (e : Int)
    (htok : tokenFalsy st.access_token = false)
    (hfresh : inp.now < st.expires_at_token - 60)
    (hplay : get_current_playing cfg.statusPfx inp.nowMs inp.playResp =
      PlayingResult.playing m e)
    (hdiff : some m ≠ st.last_status)
    (hfail : set_github_status inp.githubResp = false) :
    mainTick cfg st inp =
      (StepOutcome.next st,
        [Effect.pollCall, Effect.publish (some m),
          Effect.sleepSec cfg.pollInterval]) ∧
    runTicks cfg st [inp, inp] =
      (some st,
        [Effect.pollCall, Effect.publish (some m),
          Effect.sleepSec cfg.pollInterval,
          Effect.pollCall, Effect.publish (some m),
          Effect.sleepSec cfg.pollInterval]) := by
  have hnot : ¬ (tokenFalsy st.access_token = true ∨
      inp.now ≥ st.expires_at_token - 60) := by
    push_neg
    exact ⟨by simp [htok], by omega⟩
  have h1 : mainTick cfg st inp =
      (StepOutcome.next st,
        [Effect.pollCall, Effect.publish (some m),
          Effect.sleepSec cfg.pollInterval]) := by
    unfold mainTick
    rw [if_neg hnot]
    simp [pollPhase, hplay, hdiff, hfail]
  exact ⟨h1, by simp [runTicks, h1]⟩

/-- C3 witness: from a state with a published status and a playing track,
a 502 from GitHub leaves `last_status` at its old value and the double tick
attempts the publish twice. -/
theorem C3_publish_failure_keeps_last_status_witness :
    mainTick cfg0 stPolling inpPlayingGhFail =
      (StepOutcome.next stPolling,
        [Effect.pollCall, Effect.publish (some "p: Song by A, B"),
          Effect.sleepSec 15]) ∧
    runTicks cfg0 stPolling [inpPlayingGhFail, inpPlayingGhFail] =
      (some stPolling,
        [Effect.pollCall, Effect.publish (some "p: Song by A, B"),
          Effect.sleepSec 15,
          Effect.pollCall, Effect.publish (some "p: Song by A, B"),
          Effect.sleepSec 15]) :=
  C3_publish_failure_keeps_last_status cfg0 stPolling inpPlayingGhFail
    "p: Song by A, B" 30000 (by decide) (by decide) (by decide) (by decide)
    (by decide)

/-- C4: a tick whose candidate message equals `last_status` makes no publish
call and leaves the state untouched, and over any sequence of such ticks
the published status never changes and no publish call is ever made — no
duplicate publish for unchanged state. -/
theorem C4_unchanged_candidate_no_publish (cfg : Config) (st : MainState)
    (inp : TickInput) (inputs : List TickInput)
    (htok : tokenFalsy st.access_token = false)
    (hfresh : inp.now < st.expires_at_token - 60)
    (hnt : get_current_playing cfg.statusPfx inp.nowMs inp.playResp ≠
      PlayingResult.tokenExpired)
    (hmsg : messageOf
        (get_current_playing cfg.statusPfx inp.nowMs inp.playResp)
      = st.last_status)
    (hall : ∀ i ∈ inputs, i.now < st.expires_at_token - 60 ∧
      get_current_playing cfg.statusPfx i.nowMs i.playResp ≠
        PlayingResult.tokenExpired ∧
      messageOf (get_current_playing cfg.statusPfx i.nowMs i.playResp)
        = st.last_status) :
    mainTick cfg st inp =
      (StepOutcome.next st,
        [Effect.pollCall, Effect.sleepSec cfg.pollInterval]) ∧
    (runTicks cfg st inputs).1 = some st ∧
    ∀ m, Effect.publish m ∉ (runTicks cfg st inputs).2 := by
  refine ⟨tick_unchanged cfg st inp htok hfresh hnt hmsg, ?_⟩
  induction inputs with
  | nil => simp [runTicks]
  | cons a tl ih =>
    obtain ⟨ha1, ha2, ha3⟩ := hall a (List.mem_cons_self a tl)
    have hta := tick_unchanged cfg st a htok ha1 ha2 ha3
    have ihr := ih (fun i hi => hall i (List.mem_cons_of_mem a hi))
    refine ⟨by simp [runTicks, hta, ihr.1], ?_⟩
    intro m
    simp [runTicks, hta]
    exact fun h => (ihr.2 m) h

/-- C4 witness: with nothing playing and nothing published, two consecutive
idle ticks change nothing and never publish. -/
theorem C4_unchanged_candidate_no_publish_witness :
    mainTick cfg0 stIdle inpIdle =
      (StepOutcome.next stIdle, [Effect.pollCall, Effect.sleepSec 15]) ∧
    (runTicks cfg0 stIdle [inpIdle, inpIdle]).1 = some stIdle ∧
    Effect.publish none ∉ (runTicks cfg0 stIdle [inpIdle, inpIdle]).2 := by
  have h := C4_unchanged_candidate_no_publish cfg0 stIdle inpIdle
    [inpIdle, inpIdle] (by decide) (by decide) (by decide) (by decide)
    (by decide)
  exact ⟨h.1, h.2.1, h.2.2 none⟩

/-- C5: with `CLEAR_STATUS_WHEN_IDLE = false`, an idle candidate while a
status is published skips the publish call and leaves `last_status` alone,
and a later tick with a differing non-null candidate and a successful
publish does set the status and advance `last_status`. -/
theorem C5_skip_clear_keeps_last_status (cfg : Config) (st : MainState)
    (inp : TickInput) (s : String)
    (hclear : cfg.clearWhenIdle = false)
    (htok : tokenFalsy st.access_token = false)
    (hfresh : inp.now < st.expires_at_token - 60)
    (habsent : get_current_playing cfg.statusPfx inp.nowMs inp.playResp =
      PlayingResult.absent)
    (hlast : st.last_status = some s) :
    mainTick cfg st inp =
      (StepOutcome.next st,
        [Effect.pollCall, Effect.sleepSec cfg.pollInterval]) ∧
    (∀ inp2 : TickInput, ∀ m : String, ∀ e : Int,
      inp2.now < st.expires_at_token - 60 →
      get_current_playing cfg.statusPfx inp2.nowMs inp2.playResp =
        PlayingResult.playing m e →
      some m ≠ st.last_status →
      set_github_status inp2.githubResp = true →
      mainTick cfg st inp2 =
        (StepOutcome.next { st with last_status := some m },
          [Effect.pollCall, Effect.publish (some m),
            Effect.sleepSec cfg.pollInterval])) := by
  have hnot : ¬ (tokenFalsy st.access_token = true ∨
      inp.now ≥ st.expires_at_token - 60) := by
    push_neg
    exact ⟨by simp [htok], by omega⟩
  constructor
  · unfold mainTick
    rw [if_neg hnot]
    simp [pollPhase, habsent, hlast, hclear]
  · intro inp2 m e hf2 hp2 hd2 hok2
    have hnot2 : ¬ (tokenFalsy st.access_token = true ∨
        inp2.now ≥ st.expires_at_token - 60) := by
      push_neg
      exact ⟨by simp [htok], by omega⟩
    unfold mainTick
    rw [if_neg hnot2]
    simp [pollPhase, hp2, hd2, hok2]

/-- C5 witness: with clearing disabled, an idle tick after "p: Old by X"
changes nothing, and a later tick playing "Song" publishes the new message
and advances `last_status`. -/
theorem C5_skip_clear_keeps_last_status_witness :
    mainTick cfgNoClear stPolling inpIdle =
      (StepOutcome.next stPolling, [Effect.pollCall, Effect.sleepSec 15]) ∧
    mainTick cfgNoClear stPolling inpPlaying =
      (StepOutcome.next { stPolling with last_status := some "p: Song by A, B" },
        [Effect.pollCall, Effect.publish (some "p: Song by A, B"),
          Effect.sleepSec 15]) := by
  have h := C5_skip_clear_keeps_last_status cfgNoClear stPolling inpIdle
    "p: Old by X" rfl (by decide) (by decide) (by decide) rfl
  exact ⟨h.1, h.2 inpPlaying "p: Song by A, B" 30000 (by decide) (by decide)
    (by decide) rfl⟩

/-- C7: a failed refresh on a tick that needed one increments the failure
counter and, below five failures, sleeps `min(POLL_INTERVAL * failures,
300)` seconds and continues with everything else (token, expiry, store)
untouched — still needing a refresh; at five consecutive failures the
process exits 1; and any successful (200) refresh leaves the loop with the
counter reset to zero. -/
theorem C7_transient_backoff_fatal_and_reset (cfg : Config) (st : MainState)
    (inp : TickInput)
    (hneed : tokenFalsy st.access_token = true ∨
      inp.now ≥ st.expires_at_token - 60)
    (hfail : inp.tokenResp.status ≠ 200) :
    (st.consecutive_failures + 1 < 5 →
      mainTick cfg st inp =
        (StepOutcome.next
            { st with consecutive_failures := st.consecutive_failures + 1 },
          [Effect.refreshCall,
            Effect.sleepSec
              (min (cfg.pollInterval * (st.consecutive_failures + 1)) 300)])) ∧
    (st.consecutive_failures + 1 ≥ 5 →
      mainTick cfg st inp = (StepOutcome.exit 1, [Effect.refreshCall])) ∧
    (∀ inp2 : TickInput, inp2.tokenResp.status = 200 →
      (tokenFalsy st.access_token = true ∨
        inp2.now ≥ st.expires_at_token - 60) →
      ∀ st3 : MainState, (mainTick cfg st inp2).1 = StepOutcome.next st3 →
        st3.consecutive_failures = 0) := by
  have h := refresh_failure_tick cfg st inp hneed hfail
  refine ⟨h.1, h.2, ?_⟩
  intro inp2 h200 hneed2 st3 hst3
  obtain ⟨st3x, effs, heq, hcf, _, _⟩ :=
    refresh_success_tick cfg st inp2 hneed2 h200
  rw [heq] at hst3
  cases hst3
  exact hcf

/-- C7 witness: one 503 at zero failures backs off 15 seconds with counter
1; one 503 at four failures exits 1; a successful refresh-and-publish tick
ends with the counter at 0. -/
theorem C7_transient_backoff_fatal_and_reset_witness :
    mainTick cfg0 st0 inpServerErr =
      (StepOutcome.next { st0 with consecutive_failures := 1 },
        [Effect.refreshCall, Effect.sleepSec 15]) ∧
    mainTick cfg0 stFail4 inpServerErr =
      (StepOutcome.exit 1, [Effect.refreshCall]) ∧
    MainState.consecutive_failures
      { access_token := some "acc1", expires_at_token := 3600,
        last_status := some "p: Song by A, B", consecutive_failures := 0,
        tokens := tokens0 } = 0 := by
  have h := C7_transient_backoff_fatal_and_reset cfg0 st0 inpServerErr
    (Or.inl rfl) (by decide)
  have h4 := C7_transient_backoff_fatal_and_reset cfg0 stFail4 inpServerErr
    (Or.inl rfl) (by decide)
  refine ⟨?_, h4.2.1 (by decide), h.2.2 inpPlaying rfl (Or.inl rfl) _ (by decide)⟩
  have h2 := h.1 (by decide)
  rw [h2]
  decide

/-- C8: a 401 from the playback endpoint makes the tick clear the access
token and loop again immediately — no sleep, no publish, `last_status`
untouched — and on the next tick, once the token endpoint answers 200, the
loop refreshes and polls again. -/
theorem C8_401_forces_refresh_without_sleep (cfg : Config) (st : MainState)
    (inp : TickInput)
    (htok : tokenFalsy st.access_token = false)
    (hfresh : inp.now < st.expires_at_token - 60)
    (h401 : inp.playResp.status = 401) :
    mainTick cfg st inp =
      (StepOutcome.next { st with access_token := none },
        [Effect.pollCall]) ∧
    (∀ inp2 : TickInput, inp2.tokenResp.status = 200 →
      Effect.refreshCall ∈
        (mainTick cfg { st with access_token := none } inp2).2 ∧
      Effect.pollCall ∈
        (mainTick cfg { st with access_token := none } inp2).2) := by
  have hnot : ¬ (tokenFalsy st.access_token = true ∨
      inp.now ≥ st.expires_at_token - 60) := by
    push_neg
    exact ⟨by simp [htok], by omega⟩
  have hexp : get_current_playing cfg.statusPfx inp.nowMs inp.playResp =
      PlayingResult.tokenExpired := by
    simp [get_current_playing, h401]
  constructor
  · unfold mainTick
    rw [if_neg hnot]
    simp [pollPhase, hexp]
  · intro inp2 h200
    obtain ⟨st3, effs, heq, _, hrc, hpc⟩ :=
      refresh_success_tick cfg { st with access_token := none } inp2
        (Or.inl rfl) h200
    rw [heq]
    exact ⟨hrc, hpc⟩

/-- C8 witness: a 401 tick from the steady state drops the token with only
the poll call recorded, and the following tick with a 200 token response
performs both the refresh call and a poll call. -/
theorem C8_401_forces_refresh_without_sleep_witness :
    mainTick cfg0 stPolling inp401 =
      (StepOutcome.next { stPolling with access_token := none },
        [Effect.pollCall]) ∧
    Effect.refreshCall ∈
      (mainTick cfg0 { stPolling with access_token := none } inpPlaying).2 ∧
    Effect.pollCall ∈
      (mainTick cfg0 { stPolling with access_token := none } inpPlaying).2 := by
  have h := C8_401_forces_refresh_without_sleep cfg0 stPolling inp401
    (by decide) (by decide) rfl
  exact ⟨h.1, h.2 inpPlaying rfl⟩

end SpotifyGithub
